import Mathlib

/-!
Verification of the kubewatch controller (`pkg/controller/controller.go`).

The controller wires six per-resource-kind watch loops (pods, services,
replication controllers, deployments, jobs, persistent volumes) to a shared
event handler.  Each `watchX` function builds a list/watch against one API
endpoint, constructs an informer with a fixed 30-minute resync period, starts
it as a goroutine with `wait.NeverStop`, and returns the informer's store.
`Controller` performs client setup (fatal on failure), starts each enabled
loop, then blocks on an HTTP listener.

The embedding below models each function as a pure description of the
structures it builds plus the ordered list of effects it performs.
-/

namespace Kubewatch

/-- API groups reachable from the typed client: `Core()`, `ExtensionsV1beta1()`,
`BatchV1()` as used in controller.go. -/
inductive APIGroup
  | core
  | extensionsV1beta1
  | batchV1
deriving DecidableEq

/-- The kubernetes clientset handed to every watch function, abstracted to an
identity; the controller only ever asks it for per-group REST clients. -/
structure Clientset where
  id : Nat
deriving DecidableEq

/-- A REST client obtained from a clientset for one API group,
e.g. `clientset.Core().RESTClient()`. -/
structure RESTClient where
  clientset : Clientset
  group : APIGroup
deriving DecidableEq

/-- Model of `clientset.Core().RESTClient()`. -/
def Clientset.core (c : Clientset) : RESTClient :=
  ⟨c, APIGroup.core⟩

/-- Model of `clientset.ExtensionsV1beta1().RESTClient()`. -/
def Clientset.extensionsV1beta1 (c : Clientset) : RESTClient :=
  ⟨c, APIGroup.extensionsV1beta1⟩

/-- Model of `clientset.BatchV1().RESTClient()`. -/
def Clientset.batchV1 (c : Clientset) : RESTClient :=
  ⟨c, APIGroup.batchV1⟩

/-- A field selector as passed to `NewListWatchFromClient`; the code only ever
builds `fields.Everything()`, but a non-trivial selector exists in the API. -/
inductive FieldSelector
  | everything
  | selector (s : String)
deriving DecidableEq

/-- Model of `api.NamespaceAll`, the empty namespace meaning "all namespaces". -/
def NamespaceAll : String := ""

/-- A list/watch built by `cache.NewListWatchFromClient(client, resource, ns, sel)`. -/
structure ListWatch where
  client : RESTClient
  resource : String
  ns : String
  fieldSelector : FieldSelector
deriving DecidableEq

/-- Model of `cache.NewListWatchFromClient`. -/
def NewListWatchFromClient (client : RESTClient) (resource : String)
    (ns : String) (fieldSelector : FieldSelector) : ListWatch :=
  ⟨client, resource, ns, fieldSelector⟩

/-- The typed example object passed to `cache.NewInformer` (`&api.Pod{}`,
`&v1beta1.Deployment{}`, ...), i.e. the decoder chosen for stream payloads.
This enumeration is the compile-time set of resource kinds. -/
inductive ObjectType
  | pod
  | service
  | replicationController
  | deployment
  | job
  | persistentVolume
deriving DecidableEq

/-- The event-handler value (`handlers.Handler` interface) passed into the
controller, abstracted to an identity. -/
structure Handler where
  id : Nat
deriving DecidableEq

/-- The three entry points of the `handlers.Handler` interface. -/
inductive HandlerMethod
  | objectCreated
  | objectUpdated
  | objectDeleted
deriving DecidableEq

/-- A bound method value such as `eventHandler.ObjectCreated`: which handler
and which of its entry points. -/
structure MethodRef where
  handler : Handler
  method : HandlerMethod
deriving DecidableEq

/-- Model of `cache.ResourceEventHandlerFuncs`; a `none` field is a nil Go
function, meaning no callback is registered for that transition. -/
structure ResourceEventHandlerFuncs where
  addFunc : Option MethodRef
  deleteFunc : Option MethodRef
  updateFunc : Option MethodRef
deriving DecidableEq

/-- The informer configuration produced by `cache.NewInformer`: the list/watch
source, the typed decoder, the resync period (in nanoseconds, as Go durations)
and the registered callbacks. -/
structure Informer where
  watchlist : ListWatch
  objType : ObjectType
  resyncPeriod : Nat
  handlers : ResourceEventHandlerFuncs
deriving DecidableEq

/-- A `cache.Store` value: either the nil zero value of the interface (as in
`var servicesStore cache.Store`) or the store created by an informer. -/
inductive Store
  | nil
  | fromInformer (informer : Informer)
deriving DecidableEq

/-- Model of `cache.NewInformer`: returns the fresh store and the informer
controller built from the given configuration. -/
def NewInformer (watchlist : ListWatch) (objType : ObjectType)
    (resyncPeriod : Nat) (handlers : ResourceEventHandlerFuncs) :
    Store × Informer :=
  (Store.fromInformer ⟨watchlist, objType, resyncPeriod, handlers⟩,
   ⟨watchlist, objType, resyncPeriod, handlers⟩)

/-- A stop channel for an informer run: `wait.NeverStop` is a channel that is
never closed, so no stop signal can ever be delivered on it; a closable
channel could deliver one. -/
inductive StopCh
  | neverStop
  | closable (id : Nat)
deriving DecidableEq

/-- Whether a stop signal can ever be delivered on this channel. -/
def StopCh.canDeliverStop : StopCh → Bool
  | StopCh.neverStop => false
  | StopCh.closable _ => true

/-- Go's `time.Minute` in nanoseconds. -/
def timeMinute : Nat := 60 * 1000000000

/-- An observable effect performed by the controller code: starting an
informer loop as a goroutine (with its stop channel), blocking on
`http.ListenAndServe`, or terminating the process via `logrus.Fatal` /
a panic with the given exit code. -/
inductive Effect
  | startLoop (informer : Informer) (stop : StopCh)
  | listenAndServe (addr : String)
  | fatalExit (code : Nat)
deriving DecidableEq

/-- Whether the effect blocks the calling goroutine indefinitely: starting a
goroutine does not, serving HTTP does. -/
def Effect.blocks : Effect → Bool
  | Effect.startLoop _ _ => false
  | Effect.listenAndServe _ => true
  | Effect.fatalExit _ => false

/-- Whether the effect is the start of an informer loop. -/
def Effect.isStartLoop : Effect → Bool
  | Effect.startLoop _ _ => true
  | _ => false

/-- Whether the effect terminates the process with a non-zero exit code. -/
def Effect.isFatalNonzeroExit : Effect → Bool
  | Effect.fatalExit code => code != 0
  | _ => false

/-- The informers of all loop-start effects in a trace, in order. -/
def startedLoops (trace : List Effect) : List Informer :=
  trace.filterMap fun e =>
    match e with
    | Effect.startLoop i _ => some i
    | _ => none

/-- How many loops watching objects of the given type a trace starts. -/
def startedLoopsWithType (trace : List Effect) (t : ObjectType) : Nat :=
  ((startedLoops trace).filter fun i => i.objType == t).length

/-- The stop channels of all loop-start effects in a trace, in order. -/
def startedLoopStops (trace : List Effect) : List StopCh :=
  trace.filterMap fun e =>
    match e with
    | Effect.startLoop _ s => some s
    | _ => none

/-- The value a `watchX` function computes: the informer it configures, the
effects it performs, and the store it returns. -/
structure WatchResult where
  informer : Informer
  effects : List Effect
  ret : Store
deriving DecidableEq

/-- Shallow embedding of `watchPods` (controller.go:79-100): list/watch on the
core API "pods" endpoint across all namespaces with no field selector, a
30-minute resync, `AddFunc`/`DeleteFunc` registered (no `UpdateFunc`), and
the informer started as a goroutine with `wait.NeverStop`. -/
def watchPods (clientset : Clientset) (eventHandler : Handler) : WatchResult :=
  let watchlist := NewListWatchFromClient clientset.core "pods" NamespaceAll
    FieldSelector.everything
  let resyncPeriod := 30 * timeMinute
  let p := NewInformer watchlist ObjectType.pod resyncPeriod
    ⟨some ⟨eventHandler, HandlerMethod.objectCreated⟩,
     some ⟨eventHandler, HandlerMethod.objectDeleted⟩,
     none⟩
  ⟨p.2, [Effect.startLoop p.2 StopCh.neverStop], p.1⟩

/-- Shallow embedding of `watchServices` (controller.go:102-124): like
`watchPods` but on "services", and the only watch function that also
registers `UpdateFunc`. -/
def watchServices (clientset : Clientset) (eventHandler : Handler) : WatchResult :=
  let watchlist := NewListWatchFromClient clientset.core "services" NamespaceAll
    FieldSelector.everything
  let resyncPeriod := 30 * timeMinute
  let p := NewInformer watchlist ObjectType.service resyncPeriod
    ⟨some ⟨eventHandler, HandlerMethod.objectCreated⟩,
     some ⟨eventHandler, HandlerMethod.objectDeleted⟩,
     some ⟨eventHandler, HandlerMethod.objectUpdated⟩⟩
  ⟨p.2, [Effect.startLoop p.2 StopCh.neverStop], p.1⟩

/-- Shallow embedding of `watchReplicationControllers` (controller.go:126-147). -/
def watchReplicationControllers (clientset : Clientset) (eventHandler : Handler) :
    WatchResult :=
  let watchlist := NewListWatchFromClient clientset.core "replicationcontrollers"
    NamespaceAll FieldSelector.everything
  let resyncPeriod := 30 * timeMinute
  let p := NewInformer watchlist ObjectType.replicationController resyncPeriod
    ⟨some ⟨eventHandler, HandlerMethod.objectCreated⟩,
     some ⟨eventHandler, HandlerMethod.objectDeleted⟩,
     none⟩
  ⟨p.2, [Effect.startLoop p.2 StopCh.neverStop], p.1⟩

/-- Shallow embedding of `watchDeployments` (controller.go:149-170): the
extensions/v1beta1 API with a Deployment decoder. -/
def watchDeployments (clientset : Clientset) (eventHandler : Handler) : WatchResult :=
  let watchlist := NewListWatchFromClient clientset.extensionsV1beta1 "deployments"
    NamespaceAll FieldSelector.everything
  let resyncPeriod := 30 * timeMinute
  let p := NewInformer watchlist ObjectType.deployment resyncPeriod
    ⟨some ⟨eventHandler, HandlerMethod.objectCreated⟩,
     some ⟨eventHandler, HandlerMethod.objectDeleted⟩,
     none⟩
  ⟨p.2, [Effect.startLoop p.2 StopCh.neverStop], p.1⟩

/-- Shallow embedding of `watchJobs` (controller.go:172-193): the batch/v1 API
with a Job decoder. -/
def watchJobs (clientset : Clientset) (eventHandler : Handler) : WatchResult :=
  let watchlist := NewListWatchFromClient clientset.batchV1 "jobs" NamespaceAll
    FieldSelector.everything
  let resyncPeriod := 30 * timeMinute
  let p := NewInformer watchlist ObjectType.job resyncPeriod
    ⟨some ⟨eventHandler, HandlerMethod.objectCreated⟩,
     some ⟨eventHandler, HandlerMethod.objectDeleted⟩,
     none⟩
  ⟨p.2, [Effect.startLoop p.2 StopCh.neverStop], p.1⟩

/-- Shallow embedding of `watchPersistenVolumes` (controller.go:195-216): note
the `store` parameter, which the body never reads; the function always builds
a fresh list/watch on "persistentvolumes" and returns the informer's store. -/
def watchPersistenVolumes (clientset : Clientset) (store : Store)
    (eventHandler : Handler) : WatchResult :=
  let watchlist := NewListWatchFromClient clientset.core "persistentvolumes"
    NamespaceAll FieldSelector.everything
  let resyncPeriod := 30 * timeMinute
  let p := NewInformer watchlist ObjectType.persistentVolume resyncPeriod
    ⟨some ⟨eventHandler, HandlerMethod.objectCreated⟩,
     some ⟨eventHandler, HandlerMethod.objectDeleted⟩,
     none⟩
  ⟨p.2, [Effect.startLoop p.2 StopCh.neverStop], p.1⟩

/-- The boolean resource flags of `config.Config` consulted by `Controller`. -/
structure Resource where
  pod : Bool
  services : Bool
  replicationController : Bool
  deployment : Bool
  job : Bool
  persistentVolume : Bool
deriving DecidableEq

/-- The process configuration as consumed by `Controller`. -/
structure Config where
  resource : Resource
deriving DecidableEq

/-- Outcome of the client setup performed at the top of `Controller`: loading
the kubeconfig rules can fail, turning them into a REST config can fail,
`NewForConfigOrDie` can die, or setup succeeds with a clientset. -/
inductive SetupOutcome
  | loadFails
  | clientConfigFails
  | newForConfigFails
  | ok (kubeClient : Clientset)
deriving DecidableEq

/-- Shallow embedding of `Controller` (controller.go:37-77) as the trace of
effects it performs.  A failed `clientcmd` load or client-config build hits
`logrus.Fatal` (exit code 1); `NewForConfigOrDie` panics (Go exit code 2).
On success it starts one watch loop per enabled resource flag, in source
order, passing the nil `servicesStore` zero value to `watchPersistenVolumes`,
and finally blocks on `http.ListenAndServe(":8081", nil)`, whose return value
feeds `logrus.Fatal`. -/
def Controller (setup : SetupOutcome) (conf : Config) (eventHandler : Handler) :
    List Effect :=
  match setup with
  | SetupOutcome.loadFails => [Effect.fatalExit 1]
  | SetupOutcome.clientConfigFails => [Effect.fatalExit 1]
  | SetupOutcome.newForConfigFails => [Effect.fatalExit 2]
  | SetupOutcome.ok kubeClient =>
      (if conf.resource.pod then (watchPods kubeClient eventHandler).effects else [])
      ++ (if conf.resource.services then
            (watchServices kubeClient eventHandler).effects else [])
      ++ (if conf.resource.replicationController then
            (watchReplicationControllers kubeClient eventHandler).effects else [])
      ++ (if conf.resource.deployment then
            (watchDeployments kubeClient eventHandler).effects else [])
      ++ (if conf.resource.job then (watchJobs kubeClient eventHandler).effects else [])
      ++ (if conf.resource.persistentVolume then
            (watchPersistenVolumes kubeClient Store.nil eventHandler).effects else [])
      ++ [Effect.listenAndServe ":8081", Effect.fatalExit 1]

/-- A stable object identity: namespace plus name. -/
structure Identity where
  ns : String
  name : String
deriving DecidableEq

/-- A watched object: its identity fields and resource version; kind-specific
payload is irrelevant to the engine. -/
structure Obj where
  ns : String
  name : String
  resourceVersion : Nat
deriving DecidableEq

/-- A detected lifecycle transition, as produced by the reconciliation loop. -/
inductive Transition
  | created (obj : Obj)
  | updated (oldObj newObj : Obj)
  | deleted (obj : Obj)
deriving DecidableEq

/-- One synchronous call into a handler entry point with its arguments. -/
inductive HandlerCall
  | created (m : MethodRef) (obj : Obj)
  | updated (m : MethodRef) (oldObj newObj : Obj)
  | deleted (m : MethodRef) (obj : Obj)
deriving DecidableEq

/-- Modelled from the spec: the informer's dispatch of a detected transition
to the registered callbacks lives in the client library
(`cache.ResourceEventHandlerFuncs`), not in this repository's sources.
"Dispatcher boundary (exposed to consumers): three notification entry points
— object-created, object-updated (old+new), object-deleted — invoked
synchronously per detected transition."  A nil (unregistered) callback means
the transition produces no call. -/
def dispatch (funcs : ResourceEventHandlerFuncs) : Transition → List HandlerCall
  | Transition.created obj =>
      match funcs.addFunc with
      | some m => [HandlerCall.created m obj]
      | none => []
  | Transition.updated oldObj newObj =>
      match funcs.updateFunc with
      | some m => [HandlerCall.updated m oldObj newObj]
      | none => []
  | Transition.deleted obj =>
      match funcs.deleteFunc with
      | some m => [HandlerCall.deleted m obj]
      | none => []

/-- Modelled from the spec: the Reconciliation Loop's handling of a `Deleted`
watch record (the loop body is the client library's informer, not part of
this repository's sources): "Deleted: remove from mirror if present, emit
Deleted; if absent, suppress (already removed, no-op)."  Returns the new
mirror and the handler calls made. -/
def processDeleted (funcs : ResourceEventHandlerFuncs)
    (mirror : List (Identity × Obj)) (ident : Identity) :
    List (Identity × Obj) × List HandlerCall :=
  match mirror.lookup ident with
  | some obj =>
      (mirror.filter fun p => p.1 != ident, dispatch funcs (Transition.deleted obj))
  | none => (mirror, [])

/-- Claim C1, counterexample: the claim says every one of the six watch loops
registers all three handler entry points, but `watchPods` leaves `UpdateFunc`
nil, so a detected update on the pods loop produces no handler call. -/
theorem watchPods_updateFunc_none_cex :
    (watchPods ⟨0⟩ ⟨0⟩).informer.handlers.updateFunc = none
    ∧ dispatch (watchPods ⟨0⟩ ⟨0⟩).informer.handlers
        (Transition.updated ⟨"default", "p", 1⟩ ⟨"default", "p", 2⟩) = [] :=
  ⟨rfl, rfl⟩

/-- Claim C1, amended: every watch loop registers object-created for creates
and object-deleted for deletes, but only `watchServices` also registers
object-updated; the other five leave `UpdateFunc` nil, so their detected
updates dispatch no handler call. -/
theorem watch_loops_handler_registration
    (cs : Clientset) (st : Store) (eh : Handler) :
    (watchPods cs eh).informer.handlers
      = ⟨some ⟨eh, HandlerMethod.objectCreated⟩,
         some ⟨eh, HandlerMethod.objectDeleted⟩, none⟩
    ∧ (watchReplicationControllers cs eh).informer.handlers
      = ⟨some ⟨eh, HandlerMethod.objectCreated⟩,
         some ⟨eh, HandlerMethod.objectDeleted⟩, none⟩
    ∧ (watchDeployments cs eh).informer.handlers
      = ⟨some ⟨eh, HandlerMethod.objectCreated⟩,
         some ⟨eh, HandlerMethod.objectDeleted⟩, none⟩
    ∧ (watchJobs cs eh).informer.handlers
      = ⟨some ⟨eh, HandlerMethod.objectCreated⟩,
         some ⟨eh, HandlerMethod.objectDeleted⟩, none⟩
    ∧ (watchPersistenVolumes cs st eh).informer.handlers
      = ⟨some ⟨eh, HandlerMethod.objectCreated⟩,
         some ⟨eh, HandlerMethod.objectDeleted⟩, none⟩
    ∧ (watchServices cs eh).informer.handlers
      = ⟨some ⟨eh, HandlerMethod.objectCreated⟩,
         some ⟨eh, HandlerMethod.objectDeleted⟩,
         some ⟨eh, HandlerMethod.objectUpdated⟩⟩
    ∧ (∀ obj : Obj,
        dispatch (watchPods cs eh).informer.handlers (Transition.created obj)
          = [HandlerCall.created ⟨eh, HandlerMethod.objectCreated⟩ obj])
    ∧ (∀ obj : Obj,
        dispatch (watchPods cs eh).informer.handlers (Transition.deleted obj)
          = [HandlerCall.deleted ⟨eh, HandlerMethod.objectDeleted⟩ obj])
    ∧ (∀ oldObj newObj : Obj,
        dispatch (watchPods cs eh).informer.handlers
          (Transition.updated oldObj newObj) = [])
    ∧ (∀ oldObj newObj : Obj,
        dispatch (watchServices cs eh).informer.handlers
          (Transition.updated oldObj newObj)
          = [HandlerCall.updated ⟨eh, HandlerMethod.objectUpdated⟩ oldObj newObj]) :=
  ⟨rfl, rfl, rfl, rfl, rfl, rfl,
   fun _ => rfl, fun _ => rfl, fun _ _ => rfl, fun _ _ => rfl⟩

set_option maxHeartbeats 3200000 in
/-- Claim C2: for each resource kind, a successful-setup `Controller` run
starts exactly one watch loop for that kind when its flag is set and none
when it is unset. -/
theorem controller_starts_one_loop_per_enabled_flag
    (cs : Clientset) (r : Resource) (eh : Handler) :
    startedLoopsWithType (Controller (SetupOutcome.ok cs) ⟨r⟩ eh) ObjectType.pod
      = (if r.pod then 1 else 0)
    ∧ startedLoopsWithType (Controller (SetupOutcome.ok cs) ⟨r⟩ eh) ObjectType.service
      = (if r.services then 1 else 0)
    ∧ startedLoopsWithType (Controller (SetupOutcome.ok cs) ⟨r⟩ eh)
        ObjectType.replicationController
      = (if r.replicationController then 1 else 0)
    ∧ startedLoopsWithType (Controller (SetupOutcome.ok cs) ⟨r⟩ eh)
        ObjectType.deployment
      = (if r.deployment then 1 else 0)
    ∧ startedLoopsWithType (Controller (SetupOutcome.ok cs) ⟨r⟩ eh) ObjectType.job
      = (if r.job then 1 else 0)
    ∧ startedLoopsWithType (Controller (SetupOutcome.ok cs) ⟨r⟩ eh)
        ObjectType.persistentVolume
      = (if r.persistentVolume then 1 else 0) := by
  obtain ⟨p, sv, rc, d, j, pv⟩ := r
  cases p <;> cases sv <;> cases rc <;> cases d <;> cases j <;> cases pv <;>
    exact ⟨rfl, rfl, rfl, rfl, rfl, rfl⟩

/-- Claim C3, counterexample: with every resource flag off and setup
succeeding, `Controller` goes on to `http.ListenAndServe`, a blocking call,
so it does not return to its caller after starting the loops. -/
theorem controller_no_return_cex :
    Controller (SetupOutcome.ok ⟨0⟩) ⟨⟨false, false, false, false, false, false⟩⟩ ⟨0⟩
      = [Effect.listenAndServe ":8081", Effect.fatalExit 1]
    ∧ Effect.blocks (Effect.listenAndServe ":8081") = true :=
  ⟨rfl, rfl⟩

set_option maxHeartbeats 3200000 in
/-- Claim C3, amended: after starting the watch loops for all enabled kinds —
none of which blocks, each loop being a goroutine — the Orchestrator does not
return to its caller: its trace is exactly the non-blocking loop starts
followed by blocking on the HTTP liveness listener on :8081, with a fatal
exit if the listener ever fails. -/
theorem controller_blocks_on_listener_after_starting_loops
    (cs : Clientset) (r : Resource) (eh : Handler) :
    Controller (SetupOutcome.ok cs) ⟨r⟩ eh
      = ((Controller (SetupOutcome.ok cs) ⟨r⟩ eh).filter Effect.isStartLoop)
        ++ [Effect.listenAndServe ":8081", Effect.fatalExit 1]
    ∧ ((Controller (SetupOutcome.ok cs) ⟨r⟩ eh).filter Effect.isStartLoop).all
        (fun e => !e.blocks) = true := by
  obtain ⟨p, sv, rc, d, j, pv⟩ := r
  cases p <;> cases sv <;> cases rc <;> cases d <;> cases j <;> cases pv <;>
    exact ⟨rfl, rfl⟩

/-- Claim C4: every one of the six watch loops configures its informer with
the same fixed resync period of 30 minutes. -/
theorem watch_loops_resync_thirty_minutes
    (cs : Clientset) (st : Store) (eh : Handler) :
    (watchPods cs eh).informer.resyncPeriod = 30 * timeMinute
    ∧ (watchServices cs eh).informer.resyncPeriod = 30 * timeMinute
    ∧ (watchReplicationControllers cs eh).informer.resyncPeriod = 30 * timeMinute
    ∧ (watchDeployments cs eh).informer.resyncPeriod = 30 * timeMinute
    ∧ (watchJobs cs eh).informer.resyncPeriod = 30 * timeMinute
    ∧ (watchPersistenVolumes cs st eh).informer.resyncPeriod = 30 * timeMinute :=
  ⟨rfl, rfl, rfl, rfl, rfl, rfl⟩

set_option maxHeartbeats 3200000 in
/-- Claim C5: every loop the Controller ever starts is started with
`wait.NeverStop`, a channel on which no stop signal can ever be delivered,
so no loop is ever stopped by the program. -/
theorem controller_loops_never_stopped
    (setup : SetupOutcome) (conf : Config) (eh : Handler) :
    (startedLoopStops (Controller setup conf eh)).all
      (fun s => s == StopCh.neverStop) = true
    ∧ StopCh.canDeliverStop StopCh.neverStop = false := by
  obtain ⟨⟨p, sv, rc, d, j, pv⟩⟩ := conf
  cases setup with
  | loadFails => exact ⟨rfl, rfl⟩
  | clientConfigFails => exact ⟨rfl, rfl⟩
  | newForConfigFails => exact ⟨rfl, rfl⟩
  | ok cs =>
      cases p <;> cases sv <;> cases rc <;> cases d <;> cases j <;> cases pv <;>
        exact ⟨rfl, rfl⟩

/-- Claim C6: each unrecoverable setup failure makes the Controller terminate
immediately with a non-zero exit and nothing else: its whole trace is one
fatal exit, with no watch loop started and no listener reached. -/
theorem controller_setup_failure_fatal_before_loops
    (conf : Config) (eh : Handler) :
    Controller SetupOutcome.loadFails conf eh = [Effect.fatalExit 1]
    ∧ Controller SetupOutcome.clientConfigFails conf eh = [Effect.fatalExit 1]
    ∧ Controller SetupOutcome.newForConfigFails conf eh = [Effect.fatalExit 2]
    ∧ (Effect.fatalExit 1).isFatalNonzeroExit = true
    ∧ (Effect.fatalExit 2).isFatalNonzeroExit = true
    ∧ startedLoops [Effect.fatalExit 1] = []
    ∧ startedLoops [Effect.fatalExit 2] = [] :=
  ⟨rfl, rfl, rfl, rfl, rfl, rfl, rfl⟩

/-- Claim C7: every one of the six watch loops lists and watches across all
namespaces (`api.NamespaceAll`) with no field selector
(`fields.Everything()`). -/
theorem watch_loops_all_namespaces_no_field_selector
    (cs : Clientset) (st : Store) (eh : Handler) :
    ((watchPods cs eh).informer.watchlist.ns = NamespaceAll
      ∧ (watchPods cs eh).informer.watchlist.fieldSelector = FieldSelector.everything)
    ∧ ((watchServices cs eh).informer.watchlist.ns = NamespaceAll
      ∧ (watchServices cs eh).informer.watchlist.fieldSelector
          = FieldSelector.everything)
    ∧ ((watchReplicationControllers cs eh).informer.watchlist.ns = NamespaceAll
      ∧ (watchReplicationControllers cs eh).informer.watchlist.fieldSelector
          = FieldSelector.everything)
    ∧ ((watchDeployments cs eh).informer.watchlist.ns = NamespaceAll
      ∧ (watchDeployments cs eh).informer.watchlist.fieldSelector
          = FieldSelector.everything)
    ∧ ((watchJobs cs eh).informer.watchlist.ns = NamespaceAll
      ∧ (watchJobs cs eh).informer.watchlist.fieldSelector
          = FieldSelector.everything)
    ∧ ((watchPersistenVolumes cs st eh).informer.watchlist.ns = NamespaceAll
      ∧ (watchPersistenVolumes cs st eh).informer.watchlist.fieldSelector
          = FieldSelector.everything) :=
  ⟨⟨rfl, rfl⟩, ⟨rfl, rfl⟩, ⟨rfl, rfl⟩, ⟨rfl, rfl⟩, ⟨rfl, rfl⟩, ⟨rfl, rfl⟩⟩

/-- Claim C8: the resource kinds form exactly the six-element compile-time
enumeration, and each kind is wired to its own endpoint and typed decoder:
pods, services, replication controllers and persistent volumes to the core
API with their matching decoders, deployments to extensions/v1beta1 with the
Deployment decoder, jobs to batch/v1 with the Job decoder. -/
theorem resource_kinds_wiring (cs : Clientset) (st : Store) (eh : Handler) :
    (∀ t : ObjectType,
      t ∈ [ObjectType.pod, ObjectType.service, ObjectType.replicationController,
           ObjectType.deployment, ObjectType.job, ObjectType.persistentVolume])
    ∧ ((watchPods cs eh).informer.watchlist.client = cs.core
      ∧ (watchPods cs eh).informer.watchlist.resource = "pods"
      ∧ (watchPods cs eh).informer.objType = ObjectType.pod)
    ∧ ((watchServices cs eh).informer.watchlist.client = cs.core
      ∧ (watchServices cs eh).informer.watchlist.resource = "services"
      ∧ (watchServices cs eh).informer.objType = ObjectType.service)
    ∧ ((watchReplicationControllers cs eh).informer.watchlist.client = cs.core
      ∧ (watchReplicationControllers cs eh).informer.watchlist.resource
          = "replicationcontrollers"
      ∧ (watchReplicationControllers cs eh).informer.objType
          = ObjectType.replicationController)
    ∧ ((watchDeployments cs eh).informer.watchlist.client = cs.extensionsV1beta1
      ∧ (watchDeployments cs eh).informer.watchlist.resource = "deployments"
      ∧ (watchDeployments cs eh).informer.objType = ObjectType.deployment)
    ∧ ((watchJobs cs eh).informer.watchlist.client = cs.batchV1
      ∧ (watchJobs cs eh).informer.watchlist.resource = "jobs"
      ∧ (watchJobs cs eh).informer.objType = ObjectType.job)
    ∧ ((watchPersistenVolumes cs st eh).informer.watchlist.client = cs.core
      ∧ (watchPersistenVolumes cs st eh).informer.watchlist.resource
          = "persistentvolumes"
      ∧ (watchPersistenVolumes cs st eh).informer.objType
          = ObjectType.persistentVolume) :=
  ⟨fun t => by cases t <;> simp,
   ⟨rfl, rfl, rfl⟩, ⟨rfl, rfl, rfl⟩, ⟨rfl, rfl, rfl⟩,
   ⟨rfl, rfl, rfl⟩, ⟨rfl, rfl, rfl⟩, ⟨rfl, rfl, rfl⟩⟩

/-- Claim C9: processing a `Deleted` record for an identity absent from the
mirror makes no handler call and leaves the mirror unchanged. -/
theorem deleted_absent_identity_noop (funcs : ResourceEventHandlerFuncs)
    (mirror : List (Identity × Obj)) (ident : Identity)
    (habs : mirror.lookup ident = none) :
    processDeleted funcs mirror ident = (mirror, []) := by
  simp [processDeleted, habs]

/-- Claim C9, witness: a concrete one-entry mirror and an identity not in it;
the deleted-record handling returns the mirror unchanged and no calls. -/
theorem deleted_absent_identity_noop_witness :
    ([((⟨"default", "a"⟩ : Identity), (⟨"default", "a", 1⟩ : Obj))].lookup
        (⟨"default", "b"⟩ : Identity) = none)
    ∧ processDeleted
        ⟨some ⟨⟨0⟩, HandlerMethod.objectCreated⟩,
         some ⟨⟨0⟩, HandlerMethod.objectDeleted⟩, none⟩
        [((⟨"default", "a"⟩ : Identity), (⟨"default", "a", 1⟩ : Obj))]
        ⟨"default", "b"⟩
      = ([((⟨"default", "a"⟩ : Identity), (⟨"default", "a", 1⟩ : Obj))], []) :=
  ⟨by decide,
   deleted_absent_identity_noop
     ⟨some ⟨⟨0⟩, HandlerMethod.objectCreated⟩,
      some ⟨⟨0⟩, HandlerMethod.objectDeleted⟩, none⟩
     [((⟨"default", "a"⟩ : Identity), (⟨"default", "a", 1⟩ : Obj))]
     ⟨"default", "b"⟩ (by decide)⟩

/-- Claim C10: `watchPersistenVolumes` never reads its `store` argument — its
whole result is identical for any two store values passed in (including the
nil zero value) — and the store it returns is the freshly created one. -/
theorem watchPersistenVolumes_ignores_store_argument
    (cs : Clientset) (s1 s2 : Store) (eh : Handler) :
    watchPersistenVolumes cs s1 eh = watchPersistenVolumes cs s2 eh
    ∧ (watchPersistenVolumes cs s1 eh).ret
        = Store.fromInformer (watchPersistenVolumes cs s1 eh).informer :=
  ⟨rfl, rfl⟩

end Kubewatch
